import Mathlib

/-!
Verification of the `llms` multi-provider dispatch and benchmarking engine
(`llms/llms.py`, with the OpenAI model table from `llms/providers/openai.py`).

The Python code is shallowly embedded: Python floats that carry exact decimal
measurements (latency, cost) are modelled as rationals `ℚ`, Python `int` as
`ℤ`/`ℕ`, and Python exceptions as an explicit error type `PyErr` threaded
through `Except`.  Python string operations used by the code (`str.lower`,
`in`, `str.split(",")`, `str.strip`, `int(...)`) are re-implemented over
`List Char` so that all definitions are executable; `str.lower` and `int(...)`
are modelled for ASCII input, which covers every string the code manipulates.
-/

/-- The Python exceptions raised by the embedded code.  `valueError` carries
the positional arguments of the `ValueError`, `nameError` the unbound name. -/
inductive PyErr where
  | nameError (name : String)
  | valueError (args : List String)
  | notImplementedError (msg : String)
  | indexError
  | zeroDivisionError
  | statisticsError
deriving DecidableEq

/-- A Python value that is either a bare scalar or a list, as produced by the
collapse rule of `Result` (return the item itself for a singleton, a list
otherwise). -/
inductive PyValue (α : Type) where
  | scalar (a : α)
  | listOf (l : List α)
deriving DecidableEq

/-- ASCII model of `str.lower` on a single character. -/
def lowerChar (c : Char) : Char :=
  if 'A' ≤ c && c ≤ 'Z' then Char.ofNat (c.toNat + 32) else c

/-- ASCII model of `str.lower`. -/
def pyLower (s : String) : List Char :=
  s.data.map lowerChar

/-- Is `needle` a prefix of `hay`?  (Helper for the substring test.) -/
def chPrefixOf : List Char → List Char → Bool
  | [], _ => true
  | _ :: _, [] => false
  | a :: as, b :: bs => a = b && chPrefixOf as bs

/-- Model of the Python substring test `needle in hay`. -/
def chSubstr (needle : List Char) : List Char → Bool
  | [] => needle.isEmpty
  | b :: bs => chPrefixOf needle (b :: bs) || chSubstr needle bs

/-- Model of Python `s.split(",")`: split on every comma; the empty string
splits to `[""]`. -/
def pySplitComma : List Char → List (List Char)
  | [] => [[]]
  | c :: cs =>
    if c = ',' then [] :: pySplitComma cs
    else
      match pySplitComma cs with
      | [] => [[c]]
      | g :: gs => (c :: g) :: gs

/-- A character removed by Python `str.strip()`. -/
def isPySpace (c : Char) : Bool :=
  c = ' ' || c = '\t' || c = '\n' || c = '\r' || c = '\x0b' || c = '\x0c'

/-- Model of Python `str.strip()`: drop whitespace from both ends. -/
def pyStrip (s : List Char) : List Char :=
  ((s.dropWhile isPySpace).reverse.dropWhile isPySpace).reverse

/-- Model of Python `int(s)` on ASCII input: strip surrounding whitespace,
accept an optional sign followed by a non-empty run of decimal digits, and
reject anything else (`none` stands for the `ValueError` that `int` raises). -/
def pyInt (s : List Char) : Option Int :=
  let t := pyStrip s
  let core : Option (Bool × List Char) :=
    match t with
    | [] => none
    | c :: rest =>
      if c = '-' then some (true, rest)
      else if c = '+' then some (false, rest)
      else some (false, t)
  match core with
  | none => none
  | some (neg, ds) =>
    if ds ≠ [] ∧ ds.all Char.isDigit then
      let n : Nat := ds.foldl (fun acc c => acc * 10 + (c.toNat - 48)) 0
      some (if neg then -(n : Int) else (n : Int))
    else none

/-- The combined evaluation prompt built by `evaluate_answers`
(`llms.py` lines 219–221): for each 0-based index `i`, append
`Query #{i+1}: {query}\nAnswer #{i+1}: {answer}\n\n` to the accumulator. -/
def buildEvalPrompt (query_answer_pairs : List (String × String)) : String :=
  query_answer_pairs.enum.foldl
    (fun prompt iqa =>
      prompt ++ ("Query #") ++ toString (iqa.1 + 1) ++ (": ") ++ iqa.2.1
        ++ ("\nAnswer #") ++ toString (iqa.1 + 1) ++ (": ") ++ iqa.2.2 ++ ("\n\n"))
    ("")

/-- Shallow embedding of `evaluate_answers` (`llms.py` lines 193–226) exactly
as written: the body builds the combined prompt (lines 219–221) and then
evaluates `evaluator_result.split(",")` (line 225) — but the name
`evaluator_result` is never assigned anywhere in the function or any enclosing
scope, and the `evaluator` argument is never used, so every call raises
`NameError: name 'evaluator_result' is not defined` after building the
prompt.  The commented-out `#print(evaluator_result)` on line 224 marks where
the call to the evaluator was evidently meant to happen. -/
def evaluate_answers (query_answer_pairs : List (String × String)) :
    Except PyErr (List Int) :=
  let _prompt := buildEvalPrompt query_answer_pairs
  .error (.nameError ("evaluator_result"))

/-- Lines 225–226 of `evaluate_answers` as a function of the value that the
unbound name `evaluator_result` would hold (the evaluator's reply): split the
reply on commas and apply `int(score.strip())` to each piece left to right,
raising `ValueError` at the first piece that is not an integer literal. -/
def parseScores (evaluator_result : String) : Except PyErr (List Int) :=
  (pySplitComma evaluator_result.data).mapM
    (fun score =>
      match pyInt score with
      | some n => Except.ok n
      | none => Except.error (.valueError [String.mk (pyStrip score)]))

/-- The score-assignment loop of `benchmark` (`llms.py` lines 294–296):
`for i in range(len(outputs)): evaluation_list.append(evaluation[i])`.
Indexing past the end of `evaluation` raises `IndexError`; entries of
`evaluation` beyond `numOutputs` are never read. -/
def assignEvaluation (evaluation : List Int) (numOutputs : Nat) :
    Except PyErr (List Int) :=
  (List.range numOutputs).foldl
    (fun acc i =>
      acc.bind (fun l =>
        match evaluation.get? i with
        | some s => Except.ok (l ++ [s])
        | none => Except.error .indexError))
    (Except.ok [])

/-- The evaluation step of `benchmark` for one provider, as a function of the
evaluator's reply: parse the reply (lines 225–226), then run the assignment
loop (lines 294–296) over the provider's `numOutputs` outputs. -/
def evaluationStep (evaluator_result : String) (numOutputs : Nat) :
    Except PyErr (List Int) :=
  (parseScores evaluator_result).bind
    (fun evaluation => assignEvaluation evaluation numOutputs)

/-- One element of `Result._results`: a dict with a `"text"` and a `"meta"`
entry (`llms.py` lines 114–118).  The meta dict is kept abstract as a type
parameter, since `Result` never inspects it. -/
structure ResultItem (μ : Type) where
  text : String
  meta : μ
deriving DecidableEq

/-- The `Result` envelope (`llms.py` lines 13–33): a wrapper around the list
of per-provider result dicts. -/
structure Result (μ : Type) where
  results : List (ResultItem μ)
deriving DecidableEq

/-- The `Result.text` property (lines 17–21): the bare text when the envelope
holds exactly one result, otherwise the list of texts. -/
def Result.textProp {μ : Type} (r : Result μ) : PyValue String :=
  if r.results.length = 1 then
    match r.results with
    | item :: _ => .scalar item.text
    | [] => .listOf []
  else .listOf (r.results.map (fun item => item.text))

/-- The `Result.html` property (lines 23–27), parameterised by the external
`markdown2.markdown` renderer `md`: the rendered text of the single result,
otherwise the list of rendered texts. -/
def Result.htmlProp {μ : Type} (md : String → String) (r : Result μ) :
    PyValue String :=
  if r.results.length = 1 then
    match r.results with
    | item :: _ => .scalar (md item.text)
    | [] => .listOf []
  else .listOf (r.results.map (fun item => md item.text))

/-- The `Result.meta` property (lines 29–33): the meta dict of the single
result, otherwise the list of meta dicts. -/
def Result.metaProp {μ : Type} (r : Result μ) : PyValue μ :=
  if r.results.length = 1 then
    match r.results with
    | item :: _ => .scalar item.meta
    | [] => .listOf []
  else .listOf (r.results.map (fun item => item.meta))

/-- The three backend families known to the dispatcher (`llms.py` lines 5–7). -/
inductive ProviderKind where
  | openai
  | anthropic
  | ai21
deriving DecidableEq

/-- An instantiated provider: a backend family bound to one model name
(the API key, checked for presence at construction, is not re-read later). -/
structure Provider where
  kind : ProviderKind
  model : String
deriving DecidableEq

/-- Per-model cost entry of a model-info table (costs per million tokens). -/
structure ModelCost where
  prompt : ℚ
  completion : ℚ
deriving DecidableEq

/-- `OpenAIProvider.MODEL_INFO` (`llms/providers/openai.py` lines 16–81),
keeping only the fields the dispatcher reads (model name, prompt cost,
completion cost). -/
def OpenAIProvider_MODEL_INFO : List (String × ModelCost) :=
  [(("gpt-3.5-turbo"), ⟨2, 2⟩),
   (("gpt-3.5-turbo-instruct"), ⟨2, 2⟩),
   (("gpt-4"), ⟨30, 60⟩),
   (("gpt-4-turbo"), ⟨10, 30⟩),
   (("gpt-4o"), ⟨5/2, 10⟩),
   (("gpt-4o-mini"), ⟨3/20, 3/5⟩),
   (("o1-preview"), ⟨15, 60⟩),
   (("o1-mini"), ⟨3, 12⟩),
   (("o1"), ⟨15, 60⟩)]

/-- Modelled from the spec: `AnthropicProvider.MODEL_INFO`.  The Anthropic
adapter module is not part of the sources under verification; per the spec it
is an external collaborator exposing a static model-info table mapping model
names to per-million-token prompt/completion costs.  Two representative
entries stand in for it. -/
def AnthropicProvider_MODEL_INFO : List (String × ModelCost) :=
  [(("claude-instant-v1"), ⟨163/100, 551/100⟩),
   (("claude-v1"), ⟨551/50, 817/25⟩)]

/-- Modelled from the spec: `AI21Provider.MODEL_INFO`.  The AI21 adapter
module is not part of the sources under verification; per the spec it is an
external collaborator exposing a static model-info table.  Two representative
entries stand in for it. -/
def AI21Provider_MODEL_INFO : List (String × ModelCost) :=
  [(("j2-grande-instruct"), ⟨10, 10⟩),
   (("j2-jumbo-instruct"), ⟨15, 15⟩)]

/-- The model names of a family's model-info table (Python dict membership
`single_model in Provider.MODEL_INFO` tests the keys). -/
def tableNames (table : List (String × ModelCost)) : List String :=
  table.map Prod.fst

/-- The `model` argument of `LLMS.__init__`: `None`, a single string, or a
list of strings (`llms.py` lines 50–57). -/
inductive ModelArg where
  | noneArg
  | strArg (s : String)
  | listArg (l : List String)
deriving DecidableEq

/-- The process environment read by `LLMS.__init__`: the three API-key
variables and `LLMS_DEFAULT_MODEL`. -/
structure Env where
  openai_key : Option String
  anthropic_key : Option String
  ai21_key : Option String
  default_model : Option String
deriving DecidableEq

/-- Credential resolution (`llms.py` lines 41–48): an explicitly passed key
wins, otherwise the environment variable (which may itself be absent). -/
def resolveKey (explicit envValue : Option String) : Option String :=
  match explicit with
  | some k => some k
  | none => envValue

/-- Model-list resolution (`llms.py` lines 50–57): `None` falls back to
`LLMS_DEFAULT_MODEL`, and failing that to `["gpt-3.5-turbo"]`; a bare string
is wrapped in a singleton list. -/
def resolveModels (model : ModelArg) (envDefault : Option String) :
    List String :=
  match model with
  | .noneArg =>
    match envDefault with
    | none => [("gpt-3.5-turbo")]
    | some m => [m]
  | .strArg s => [s]
  | .listArg l => l

/-- Backend selection for one requested model name (`llms.py` lines 61–77):
the first family, in the fixed order OpenAI → Anthropic → AI21, whose key is
present and whose model-info table contains the name; otherwise
`ValueError("Invalid API key and model combination", single_model)`. -/
def resolveProvider (okey akey jkey : Option String) (single_model : String) :
    Except PyErr Provider :=
  if okey.isSome && (tableNames OpenAIProvider_MODEL_INFO).contains single_model then
    .ok ⟨.openai, single_model⟩
  else if akey.isSome && (tableNames AnthropicProvider_MODEL_INFO).contains single_model then
    .ok ⟨.anthropic, single_model⟩
  else if jkey.isSome && (tableNames AI21Provider_MODEL_INFO).contains single_model then
    .ok ⟨.ai21, single_model⟩
  else
    .error (.valueError [("Invalid API key and model combination"), single_model])

/-- `LLMS.__init__` (`llms.py` lines 37–77): resolve keys and the model list,
then resolve each requested model to a provider in order, stopping at the
first failure.  An empty model list yields an empty provider list with no
error. -/
def LLMS_init (model : ModelArg) (okey akey jkey : Option String) (env : Env) :
    Except PyErr (List Provider) :=
  let okey := resolveKey okey env.openai_key
  let akey := resolveKey akey env.anthropic_key
  let jkey := resolveKey jkey env.ai21_key
  (resolveModels model env.default_model).mapM (resolveProvider okey akey jkey)

/-- What a dispatch method does before any network activity: either raises an
exception or hands the request to a concrete provider. -/
inductive DispatchStep where
  | raised (e : PyErr)
  | callsProvider (p : Provider)
deriving DecidableEq

/-- The guard logic of `LLMS.acomplete` (`llms.py` lines 131–139): more than
one provider raises `NotImplementedError`; otherwise `self._providers[0]` is
taken (raising `IndexError` when there are no providers) and the request is
delegated to it. -/
def acomplete_dispatch (providers : List Provider) : DispatchStep :=
  if providers.length > 1 then
    .raised (.notImplementedError ("acomplete not supported for multi-models yet."))
  else
    match providers.get? 0 with
    | none => .raised .indexError
    | some p => .callsProvider p

/-- The guard logic of `LLMS.complete_stream` (`llms.py` lines 153–164), as
evaluated when the returned generator is first driven: more than one provider
raises `ValueError`; otherwise `self._providers[0]` is inspected (raising
`IndexError` when there are no providers), an AI21 provider raises
`ValueError`, and any other provider receives the streaming request. -/
def complete_stream_dispatch (providers : List Provider) : DispatchStep :=
  if providers.length > 1 then
    .raised (.valueError [("Streaming is possible only with a single model")])
  else
    match providers.get? 0 with
    | none => .raised .indexError
    | some p =>
      if p.kind = .ai21 then
        .raised (.valueError [("Streaming is not yet supported with AI21 models")])
      else .callsProvider p

/-- Insert `a` into `l` before the first element `b` with `le a b`.  Together
with `pySorted` this is a stable sort, matching the stability guarantee of
Python `sorted`. -/
def insertOrd {α : Type} (le : α → α → Bool) (a : α) : List α → List α
  | [] => [a]
  | b :: bs => if le a b then a :: b :: bs else b :: insertOrd le a bs

/-- Stable insertion sort: the model of Python `sorted(xs, key=...)` (and of
`sorted(xs, key=..., reverse=True)` when `le` compares the keys reversed). -/
def pySorted {α : Type} (le : α → α → Bool) : List α → List α
  | [] => []
  | a :: as => insertOrd le a (pySorted le as)

theorem insertOrd_perm {α : Type} (le : α → α → Bool) (a : α) (l : List α) :
    (insertOrd le a l).Perm (a :: l) := by
  induction l with
  | nil => simp [insertOrd]
  | cons b bs ih =>
    simp only [insertOrd]
    split
    · exact List.Perm.refl _
    · exact (ih.cons b).trans (List.Perm.swap a b bs)

theorem pySorted_perm {α : Type} (le : α → α → Bool) (l : List α) :
    (pySorted le l).Perm l := by
  induction l with
  | nil => simp [pySorted]
  | cons a as ih =>
    exact (insertOrd_perm le a (pySorted le as)).trans (ih.cons a)

theorem mem_insertOrd {α : Type} (le : α → α → Bool) (a x : α) (l : List α) :
    x ∈ insertOrd le a l ↔ x = a ∨ x ∈ l := by
  rw [(insertOrd_perm le a l).mem_iff, List.mem_cons]

theorem insertOrd_pairwise {α : Type} (le : α → α → Bool)
    (htrans : ∀ a b c, le a b = true → le b c = true → le a c = true)
    (htot : ∀ a b, le a b = true ∨ le b a = true)
    (a : α) (l : List α) (h : l.Pairwise (fun x y => le x y = true)) :
    (insertOrd le a l).Pairwise (fun x y => le x y = true) := by
  induction l with
  | nil => simp [insertOrd]
  | cons b bs ih =>
    rcases List.pairwise_cons.mp h with ⟨hb, hbs⟩
    simp only [insertOrd]
    by_cases hab : le a b = true
    · simp only [hab, if_true]
      refine List.pairwise_cons.mpr ⟨?_, h⟩
      intro y hy
      rcases List.mem_cons.mp hy with hyb | hybs
      · exact hyb ▸ hab
      · exact htrans a b y hab (hb y hybs)
    · have hba : le b a = true := (htot a b).resolve_left hab
      simp only [hab, if_false]
      refine List.pairwise_cons.mpr ⟨?_, ih hbs⟩
      intro y hy
      rcases (mem_insertOrd le a y bs).mp hy with hya | hybs
      · exact hya ▸ hba
      · exact hb y hybs

theorem pySorted_pairwise {α : Type} (le : α → α → Bool)
    (htrans : ∀ a b c, le a b = true → le b c = true → le a c = true)
    (htot : ∀ a b, le a b = true ∨ le b a = true)
    (l : List α) :
    (pySorted le l).Pairwise (fun x y => le x y = true) := by
  induction l with
  | nil => simp [pySorted]
  | cons a as ih => exact insertOrd_pairwise le htrans htot a (pySorted le as) ih

/-- One entry of the sequence returned by `LLMS.list` (`llms.py` lines
91–95): the backend family's class name, the model name and its cost entry. -/
structure ModelInfoEntry where
  provider : String
  name : String
  cost : ModelCost
deriving DecidableEq

/-- The family tables unioned by `LLMS.list`, in its iteration order
(`llms.py` line 82): OpenAI, AI21, Anthropic — all known families, not just
the configured ones. -/
def allProviderTables : List (String × List (String × ModelCost)) :=
  [(("OpenAIProvider"), OpenAIProvider_MODEL_INFO),
   (("AI21Provider"), AI21Provider_MODEL_INFO),
   (("AnthropicProvider"), AnthropicProvider_MODEL_INFO)]

/-- The skip test of `LLMS.list` (`llms.py` lines 86–90), negated: keep an
entry when the query is absent or falsy (empty), or when the lowered query
occurs in the lowered model name or the lowered family name. -/
def keepEntry (query : Option String) (providerName modelName : String) : Bool :=
  match query with
  | none => true
  | some q =>
    if q.data = [] then true
    else chSubstr (pyLower q) (pyLower modelName)
      || chSubstr (pyLower q) (pyLower providerName)

/-- The comparison key of `LLMS.list` (`llms.py` line 99):
`cost["prompt"] + cost["completion"]`. -/
def listCostKey (e : ModelInfoEntry) : ℚ :=
  e.cost.prompt + e.cost.completion

/-- `LLMS.list` (`llms.py` lines 79–101): the double loop over all families
and their tables, keeping the entries that pass the query filter, then a
stable ascending sort by `prompt + completion` cost. -/
def LLMS_list (query : Option String) : List ModelInfoEntry :=
  let entries := allProviderTables.flatMap
    (fun pt =>
      (pt.2.filter (fun mc => keepEntry query pt.1 mc.1)).map
        (fun mc => ⟨pt.1, mc.1, mc.2⟩))
  pySorted (fun a b => decide (listCostKey a ≤ listCostKey b)) entries

/-- `statistics.median` as CPython implements it: sort the data; an empty
list raises `StatisticsError`; odd length takes the middle element, even
length the mean of the two middle elements. -/
def pyMedian (data : List ℚ) : Except PyErr ℚ :=
  let s := pySorted (fun a b => decide (a ≤ b)) data
  let n := s.length
  if n = 0 then .error .statisticsError
  else if n % 2 = 1 then
    match s.get? (n / 2) with
    | some v => .ok v
    | none => .error .indexError
  else
    match s.get? (n / 2 - 1), s.get? (n / 2) with
    | some a, some b => .ok ((a + b) / 2)
    | _, _ => .error .indexError

/-- One per-prompt outcome collected by `benchmark` (`llms.py` lines
233–239): the completion text, token count, latency, cost and the index of
the originating prompt. -/
structure OutputData where
  text : String
  tokens : ℤ
  latency : ℚ
  cost : ℚ
  prompt_index : ℕ
deriving DecidableEq

/-- The running total `model_results[model]["total_latency"]` accumulated by
the collection loop (`llms.py` lines 264–269). -/
def totalLatency (outputs : List OutputData) : ℚ :=
  outputs.foldl (fun acc o => acc + o.latency) 0

/-- The running total `model_results[model]["total_cost"]` accumulated by the
collection loop (`llms.py` lines 265–270). -/
def totalCost (outputs : List OutputData) : ℚ :=
  outputs.foldl (fun acc o => acc + o.cost) 0

/-- `total_tokens = sum([output["tokens"] for output in outputs])`
(`llms.py` line 278). -/
def totalTokens (outputs : List OutputData) : ℤ :=
  outputs.foldl (fun acc o => acc + o.tokens) 0

/-- The per-provider aggregates of `benchmark`. -/
structure ModelAggregates where
  total_latency : ℚ
  total_cost : ℚ
  median_latency : ℚ
  aggregated_speed : ℚ
deriving DecidableEq

/-- The per-provider aggregation of `benchmark` (`llms.py` lines 262–280),
run after all of a provider's outcomes are collected: the latency and cost
totals from the collection loop, then `median_latency` via
`statistics.median` and `aggregated_speed = total_tokens / total_latency` —
the division raising `ZeroDivisionError` when the total latency is zero, as
Python float division does. -/
def aggregateModel (outputs : List OutputData) : Except PyErr ModelAggregates :=
  let total_latency := totalLatency outputs
  let total_cost := totalCost outputs
  match pyMedian (outputs.map (fun o => o.latency)) with
  | .error e => .error e
  | .ok median_latency =>
    let total_tokens := totalTokens outputs
    if total_latency = 0 then .error .zeroDivisionError
    else
      .ok ⟨total_latency, total_cost, median_latency,
        (total_tokens : ℚ) / total_latency⟩

/-- What the ranking step of `benchmark` reads from one provider's results:
the provider, its `aggregated_speed`, and its evaluation scores (when an
evaluator was used). -/
structure BenchEntry where
  model : Provider
  aggregated_speed : ℚ
  evaluation : List ℤ
deriving DecidableEq

/-- The sort key of the ranking step (`llms.py` lines 298–309):
`aggregated_speed * sum(evaluation)` when an evaluator was used,
`aggregated_speed` alone otherwise. -/
def rankKey (useEvaluator : Bool) (e : BenchEntry) : ℚ :=
  if useEvaluator then e.aggregated_speed * (e.evaluation.sum : ℚ)
  else e.aggregated_speed

/-- The ranking step of `benchmark` (`llms.py` lines 298–309):
`sorted(model_results, key=..., reverse=True)` — a stable descending sort by
`rankKey`. -/
def rankModels (useEvaluator : Bool) (results : List BenchEntry) :
    List BenchEntry :=
  pySorted
    (fun a b => decide (rankKey useEvaluator b ≤ rankKey useEvaluator a))
    results

theorem foldl_add_eq_sum {M β : Type} [AddCommMonoid M] (f : β → M)
    (l : List β) (a : M) :
    l.foldl (fun acc o => acc + f o) a = a + (l.map f).sum := by
  induction l generalizing a with
  | nil => simp
  | cons x xs ih => simp [ih, add_assoc]

theorem totalLatency_eq_sum (outputs : List OutputData) :
    totalLatency outputs = (outputs.map (fun o => o.latency)).sum := by
  simpa using foldl_add_eq_sum (fun o => o.latency) outputs 0

theorem totalCost_eq_sum (outputs : List OutputData) :
    totalCost outputs = (outputs.map (fun o => o.cost)).sum := by
  simpa using foldl_add_eq_sum (fun o => o.cost) outputs 0

theorem totalTokens_eq_sum (outputs : List OutputData) :
    totalTokens outputs = (outputs.map (fun o => o.tokens)).sum := by
  simpa using foldl_add_eq_sum (fun o => o.tokens) outputs 0

theorem chSubstr_nil (hay : List Char) : chSubstr [] hay = true := by
  cases hay <;> simp [chSubstr, chPrefixOf]

theorem pySorted_length {α : Type} (le : α → α → Bool) (l : List α) :
    (pySorted le l).length = l.length :=
  (pySorted_perm le l).length_eq

theorem pyMedian_isOk (data : List ℚ) (h : data ≠ []) :
    ∃ m, pyMedian data = .ok m := by
  have hlen : (pySorted (fun a b => decide (a ≤ b)) data).length = data.length :=
    pySorted_length _ data
  have hpos : 0 < (pySorted (fun a b => decide (a ≤ b)) data).length := by
    rw [hlen]
    exact List.length_pos.mpr h
  unfold pyMedian
  set s := pySorted (fun a b => decide (a ≤ b)) data with hs
  set n := s.length with hn
  have hne : ¬ n = 0 := Nat.pos_iff_ne_zero.mp hpos
  rw [if_neg hne]
  by_cases hodd : n % 2 = 1
  · rw [if_pos hodd]
    have hlt : n / 2 < n := Nat.div_lt_self hpos (by norm_num)
    cases hget : s.get? (n / 2) with
    | none =>
      exact absurd (List.get?_eq_none.mp hget) (not_le.mpr hlt)
    | some v => exact ⟨v, rfl⟩
  · rw [if_neg hodd]
    have hlt : n / 2 < n := Nat.div_lt_self hpos (by norm_num)
    have hlt2 : n / 2 - 1 < n := lt_of_le_of_lt (Nat.sub_le _ _) hlt
    cases hget1 : s.get? (n / 2 - 1) with
    | none =>
      exact absurd (List.get?_eq_none.mp hget1) (not_le.mpr hlt2)
    | some a =>
      cases hget2 : s.get? (n / 2) with
      | none =>
        exact absurd (List.get?_eq_none.mp hget2) (not_le.mpr hlt)
      | some b => exact ⟨(a + b) / 2, rfl⟩

theorem assignEvaluation_eq (l : List Int) (n : Nat) :
    assignEvaluation l n =
      if n ≤ l.length then .ok (l.take n) else .error .indexError := by
  induction n with
  | zero => simp [assignEvaluation]
  | succ n ih =>
    have hstep : assignEvaluation l (n + 1) =
        (assignEvaluation l n).bind (fun acc =>
          match l.get? n with
          | some s => Except.ok (acc ++ [s])
          | none => Except.error .indexError) := by
      unfold assignEvaluation
      rw [List.range_succ, List.foldl_append]
      rfl
    rw [hstep, ih]
    by_cases h : n + 1 ≤ l.length
    · have hn : n ≤ l.length := Nat.le_of_succ_le h
      have hlt : n < l.length := h
      rw [if_pos hn, if_pos h]
      cases hget : l.get? n with
      | none => exact absurd (List.get?_eq_none.mp hget) (not_le.mpr hlt)
      | some v =>
        simp only [Except.bind]
        rw [List.take_succ, ← List.get?_eq_getElem?, hget]
        rfl
    · rw [if_neg h]
      by_cases hn : n ≤ l.length
      · have heq : n = l.length := le_antisymm hn (by omega)
        rw [if_pos hn]
        have hget : l.get? n = none := List.get?_eq_none.mpr (le_of_eq heq.symm)
        simp only [Except.bind]
        rw [hget]
      · rw [if_neg hn]
        rfl

theorem mem_LLMS_list {q : Option String} {e : ModelInfoEntry}
    (he : e ∈ LLMS_list q) : keepEntry q e.provider e.name = true := by
  unfold LLMS_list at he
  have he2 := (pySorted_perm _ _).mem_iff.mp he
  rcases List.mem_flatMap.mp he2 with ⟨pt, _, hmem⟩
  rcases List.mem_map.mp hmem with ⟨mc, hmc, hee⟩
  rcases List.mem_filter.mp hmc with ⟨_, hkeep⟩
  subst hee
  exact hkeep

/-- C1: the claim says `benchmark` with an evaluator builds one combined
`Query #k` / `Answer #k` prompt per provider, sends it exactly once per
provider to the evaluator, and parses the comma-separated reply.  The code
builds the prompt but never sends it: `evaluate_answers` never uses its
`evaluator` argument and reads the unbound name `evaluator_result`, so every
call — hence every benchmark invocation with an evaluator — raises
`NameError` before any evaluator call or parsing can happen.  This theorem
evaluates the embedded code: the result is the `NameError`, for all inputs. -/
theorem evaluate_answers_raises_nameError
    (query_answer_pairs : List (String × String)) :
    evaluate_answers query_answer_pairs =
      .error (.nameError ("evaluator_result")) := rfl

/-- C2 counterexample: the claim says a reply whose number of parsed integers
differs from the number of pairs fails, "in particular, a reply with too many
scores is a failure, not silently truncated".  At the concrete input below the
reply parses to three scores against two pairs, yet the evaluation step
succeeds and silently truncates to the first two scores. -/
theorem evaluationStep_extra_scores_not_error :
    parseScores ("1, 2, 3") = .ok [1, 2, 3] ∧
    evaluationStep ("1, 2, 3") 2 = .ok [1, 2] :=
  ⟨rfl, rfl⟩

/-- C2 (amended): given the evaluator's reply, a token that is not an integer
fails with `ValueError` (the spec's `EvaluationParseError`); fewer parsed
integers than pairs fails with `IndexError` in the score-assignment loop; and
more parsed integers than pairs does not fail — the extra scores are silently
dropped and the first `n` are kept. -/
theorem evaluationStep_parse_behavior (reply : String) (n : Nat) :
    (∀ e, parseScores reply = .error e → evaluationStep reply n = .error e) ∧
    (∀ scores, parseScores reply = .ok scores →
      (n ≤ scores.length → evaluationStep reply n = .ok (scores.take n)) ∧
      (scores.length < n → evaluationStep reply n = .error .indexError)) := by
  constructor
  · intro e he
    unfold evaluationStep
    rw [he]
    rfl
  · intro scores hs
    refine ⟨fun hle => ?_, fun hlt => ?_⟩
    · unfold evaluationStep
      rw [hs]
      show assignEvaluation scores n = _
      rw [assignEvaluation_eq, if_pos hle]
    · unfold evaluationStep
      rw [hs]
      show assignEvaluation scores n = _
      rw [assignEvaluation_eq, if_neg (Nat.not_le.mpr hlt)]

/-- Witness for the amended C2: a reply with a single integer against two
outputs hits the `IndexError`, and a reply with a non-integer first token
hits the `ValueError`. -/
theorem evaluationStep_parse_behavior_witness :
    evaluationStep ("7") 2 = .error .indexError ∧
    evaluationStep ("a, 1") 3 = .error (.valueError [("a")]) := by
  constructor
  · exact ((evaluationStep_parse_behavior ("7") 2).2 [7] (by rfl)).2 (by decide)
  · exact (evaluationStep_parse_behavior ("a, 1") 3).1
      (.valueError [("a")]) (by rfl)

/-- C3: a provider whose collected outcomes have zero total latency makes the
aggregation fail at the `aggregated_speed` division — the `ZeroDivisionError`
realising the spec's `DegenerateMetric` — rather than producing infinity or
NaN (which a Python float division cannot return for a zero denominator). -/
theorem aggregateModel_zero_latency (outputs : List OutputData)
    (hne : outputs ≠ []) (h0 : totalLatency outputs = 0) :
    aggregateModel outputs = .error .zeroDivisionError := by
  obtain ⟨m, hm⟩ := pyMedian_isOk (outputs.map (fun o => o.latency))
    (by simpa using hne)
  unfold aggregateModel
  rw [hm]
  simp [h0]

/-- Witness for C3: a single outcome with latency `0`. -/
theorem aggregateModel_zero_latency_witness :
    aggregateModel [⟨("answer"), 10, 0, 0, 0⟩] = .error .zeroDivisionError :=
  aggregateModel_zero_latency _ (by simp) (by simp [totalLatency])

/-- C4: once a provider's outcomes are all collected and the total latency is
nonzero, the aggregates are exactly `totalLatency = Σ latency`,
`totalCost = Σ cost`, `medianLatency = statistics.median(latencies)` and
`aggregatedSpeed = (Σ tokens) / totalLatency`. -/
theorem aggregateModel_aggregates (outputs : List OutputData)
    (hne : outputs ≠ []) (hlat : totalLatency outputs ≠ 0) :
    ∃ m, pyMedian (outputs.map (fun o => o.latency)) = .ok m ∧
      aggregateModel outputs = .ok
        ⟨(outputs.map (fun o => o.latency)).sum,
         (outputs.map (fun o => o.cost)).sum,
         m,
         (((outputs.map (fun o => o.tokens)).sum : ℤ) : ℚ) /
           (outputs.map (fun o => o.latency)).sum⟩ := by
  obtain ⟨m, hm⟩ := pyMedian_isOk (outputs.map (fun o => o.latency))
    (by simpa using hne)
  refine ⟨m, hm, ?_⟩
  unfold aggregateModel
  rw [hm]
  show (if totalLatency outputs = 0 then Except.error PyErr.zeroDivisionError
    else Except.ok (ModelAggregates.mk (totalLatency outputs) (totalCost outputs)
      m (((totalTokens outputs : ℤ) : ℚ) / totalLatency outputs))) = _
  rw [if_neg hlat, totalLatency_eq_sum, totalCost_eq_sum, totalTokens_eq_sum]

/-- Witness for C4, the spec's concrete example: outcomes
`[{tokens:10, latency:1.0}, {tokens:20, latency:1.0}]` aggregate to total
latency `2`, total cost `0`, median latency `1` and aggregated speed `15`. -/
theorem aggregateModel_aggregates_witness :
    aggregateModel [⟨("a"), 10, 1, 0, 0⟩, ⟨("b"), 20, 1, 0, 1⟩] =
      .ok ⟨2, 0, 1, 15⟩ := by
  obtain ⟨m, hm, hagg⟩ := aggregateModel_aggregates
    [⟨("a"), 10, 1, 0, 0⟩, ⟨("b"), 20, 1, 0, 1⟩]
    (by simp)
    (by simp [totalLatency])
  have h1 : pyMedian
      ([(⟨("a"), 10, 1, 0, 0⟩ : OutputData), ⟨("b"), 20, 1, 0, 1⟩].map
        (fun o => o.latency)) = .ok (((1:ℚ) + 1) / 2) := by rfl
  rw [h1] at hm
  injection hm with h2
  rw [hagg, ← h2]
  simp only [Except.ok.injEq, ModelAggregates.mk.injEq, List.map_cons,
    List.map_nil, List.sum_cons, List.sum_nil]
  refine ⟨by norm_num, by norm_num, by norm_num, by push_cast; norm_num⟩

/-- C5: the ranking step of `benchmark` returns a permutation of the
providers ordered by non-increasing key, the key being
`aggregated_speed * Σ scores` when an evaluator was used and
`aggregated_speed` alone otherwise. -/
theorem rankModels_descending (useEvaluator : Bool)
    (results : List BenchEntry) :
    (rankModels useEvaluator results).Perm results ∧
    (rankModels useEvaluator results).Pairwise
      (fun a b => rankKey useEvaluator b ≤ rankKey useEvaluator a) ∧
    (∀ e, rankKey true e = e.aggregated_speed * (e.evaluation.sum : ℚ)) ∧
    (∀ e, rankKey false e = e.aggregated_speed) := by
  refine ⟨pySorted_perm _ _, ?_, fun e => rfl, fun e => rfl⟩
  have h := pySorted_pairwise
    (fun a b => decide (rankKey useEvaluator b ≤ rankKey useEvaluator a))
    (fun a b c hab hbc => decide_eq_true
      (le_trans (of_decide_eq_true hbc) (of_decide_eq_true hab)))
    (fun a b => by
      rcases le_total (rankKey useEvaluator b) (rankKey useEvaluator a) with
        h | h
      · exact Or.inl (decide_eq_true h)
      · exact Or.inr (decide_eq_true h))
    results
  exact h.imp (fun hx => of_decide_eq_true hx)

/-- C6: all three `Result` accessors apply the same collapse rule: a
one-result envelope yields a scalar from each of `text`, `html` (under any
renderer `md`) and `meta`, and an envelope with more than one result yields
from each a sequence aligned with (hence of the same length as) the
underlying results. -/
theorem Result_collapse_uniform (μ : Type) (md : String → String)
    (r : Result μ) :
    (∀ item, r.results = [item] →
      r.textProp = .scalar item.text ∧
      Result.htmlProp md r = .scalar (md item.text) ∧
      r.metaProp = .scalar item.meta) ∧
    (1 < r.results.length →
      r.textProp = .listOf (r.results.map (fun i => i.text)) ∧
      Result.htmlProp md r = .listOf (r.results.map (fun i => md i.text)) ∧
      r.metaProp = .listOf (r.results.map (fun i => i.meta))) := by
  constructor
  · intro item hitem
    obtain ⟨rs⟩ := r
    simp only at hitem
    subst hitem
    exact ⟨rfl, rfl, rfl⟩
  · intro hlen
    have hne : ¬ r.results.length = 1 := by omega
    unfold Result.textProp Result.htmlProp Result.metaProp
    rw [if_neg hne, if_neg hne, if_neg hne]
    exact ⟨rfl, rfl, rfl⟩

/-- Witness for C6: a one-item envelope collapses to scalars under all three
accessors; a two-item envelope yields the three aligned two-element lists. -/
theorem Result_collapse_uniform_witness :
    (Result.textProp (μ := ℕ) ⟨[⟨("hi"), 3⟩]⟩ = .scalar ("hi") ∧
     Result.htmlProp (fun s => s ++ ("!")) (⟨[⟨("hi"), 3⟩]⟩ : Result ℕ) =
       .scalar ("hi!") ∧
     Result.metaProp (μ := ℕ) ⟨[⟨("hi"), 3⟩]⟩ = .scalar 3) ∧
    (Result.textProp (μ := ℕ) ⟨[⟨("a"), 1⟩, ⟨("b"), 2⟩]⟩ =
       .listOf [("a"), ("b")] ∧
     Result.htmlProp (fun s => s ++ ("!")) (⟨[⟨("a"), 1⟩, ⟨("b"), 2⟩]⟩ : Result ℕ) =
       .listOf [("a!"), ("b!")] ∧
     Result.metaProp (μ := ℕ) ⟨[⟨("a"), 1⟩, ⟨("b"), 2⟩]⟩ = .listOf [1, 2]) := by
  constructor
  · exact (Result_collapse_uniform ℕ (fun s => s ++ ("!"))
      ⟨[⟨("hi"), 3⟩]⟩).1 ⟨("hi"), 3⟩ rfl
  · have h := (Result_collapse_uniform ℕ (fun s => s ++ ("!"))
      ⟨[⟨("a"), 1⟩, ⟨("b"), 2⟩]⟩).2 (by decide)
    simpa using h

/-- C7: with more than one configured provider, `acomplete` always raises
`NotImplementedError` and `complete_stream` always raises `ValueError` — both
realising the spec's `UnsupportedOperation` — regardless of the prompt (the
guards run before the prompt is touched); and a single AI21 provider makes
`complete_stream` raise `ValueError` as well. -/
theorem dispatch_guards (providers : List Provider)
    (h : 1 < providers.length) :
    acomplete_dispatch providers =
      .raised (.notImplementedError
        ("acomplete not supported for multi-models yet.")) ∧
    complete_stream_dispatch providers =
      .raised (.valueError [("Streaming is possible only with a single model")]) ∧
    (∀ p : Provider, p.kind = .ai21 →
      complete_stream_dispatch [p] =
        .raised (.valueError
          [("Streaming is not yet supported with AI21 models")])) := by
  refine ⟨?_, ?_, ?_⟩
  · unfold acomplete_dispatch
    rw [if_pos h]
  · unfold complete_stream_dispatch
    rw [if_pos h]
  · intro p hp
    unfold complete_stream_dispatch
    simp [hp]

/-- Witness for C7: a two-provider dispatcher fails both methods; a lone AI21
provider fails streaming. -/
theorem dispatch_guards_witness :
    acomplete_dispatch [⟨.openai, ("gpt-4")⟩, ⟨.anthropic, ("claude-v1")⟩] =
      .raised (.notImplementedError
        ("acomplete not supported for multi-models yet.")) ∧
    complete_stream_dispatch [⟨.openai, ("gpt-4")⟩, ⟨.anthropic, ("claude-v1")⟩] =
      .raised (.valueError [("Streaming is possible only with a single model")]) ∧
    complete_stream_dispatch [⟨.ai21, ("j2-jumbo-instruct")⟩] =
      .raised (.valueError
        [("Streaming is not yet supported with AI21 models")]) := by
  obtain ⟨h1, h2, h3⟩ := dispatch_guards
    [⟨.openai, ("gpt-4")⟩, ⟨.anthropic, ("claude-v1")⟩] (by decide)
  exact ⟨h1, h2, h3 ⟨.ai21, ("j2-jumbo-instruct")⟩ rfl⟩

/-- C8: backend resolution for one requested model name checks the families
in the fixed order OpenAI → Anthropic → AI21 and picks the first whose table
contains the name and whose credential is present; when none matches it
raises `ValueError` (the spec's `InvalidConfiguration`) carrying the
offending model name; and with no model argument and no environment default,
the resolved model list is `["gpt-3.5-turbo"]`. -/
theorem resolveProvider_priority (okey akey jkey : Option String)
    (m : String) :
    ((okey.isSome && (tableNames OpenAIProvider_MODEL_INFO).contains m) = true →
      resolveProvider okey akey jkey m = .ok ⟨.openai, m⟩) ∧
    ((okey.isSome && (tableNames OpenAIProvider_MODEL_INFO).contains m) = false →
      (akey.isSome && (tableNames AnthropicProvider_MODEL_INFO).contains m) = true →
      resolveProvider okey akey jkey m = .ok ⟨.anthropic, m⟩) ∧
    ((okey.isSome && (tableNames OpenAIProvider_MODEL_INFO).contains m) = false →
      (akey.isSome && (tableNames AnthropicProvider_MODEL_INFO).contains m) = false →
      (jkey.isSome && (tableNames AI21Provider_MODEL_INFO).contains m) = true →
      resolveProvider okey akey jkey m = .ok ⟨.ai21, m⟩) ∧
    ((okey.isSome && (tableNames OpenAIProvider_MODEL_INFO).contains m) = false →
      (akey.isSome && (tableNames AnthropicProvider_MODEL_INFO).contains m) = false →
      (jkey.isSome && (tableNames AI21Provider_MODEL_INFO).contains m) = false →
      resolveProvider okey akey jkey m =
        .error (.valueError [("Invalid API key and model combination"), m])) ∧
    resolveModels .noneArg none = [("gpt-3.5-turbo")] := by
  refine ⟨fun h1 => ?_, fun h1 h2 => ?_, fun h1 h2 h3 => ?_,
    fun h1 h2 h3 => ?_, rfl⟩
  · unfold resolveProvider
    rw [if_pos h1]
  · unfold resolveProvider
    rw [if_neg (ne_true_of_eq_false h1), if_pos h2]
  · unfold resolveProvider
    rw [if_neg (ne_true_of_eq_false h1), if_neg (ne_true_of_eq_false h2),
      if_pos h3]
  · unfold resolveProvider
    rw [if_neg (ne_true_of_eq_false h1), if_neg (ne_true_of_eq_false h2),
      if_neg (ne_true_of_eq_false h3)]

/-- Witness for C8: an OpenAI model with an OpenAI key resolves to OpenAI; an
Anthropic model with only an Anthropic key resolves to Anthropic; with no
credentials the construction fails with the offending model name. -/
theorem resolveProvider_priority_witness :
    resolveProvider (some ("sk")) none none ("gpt-4") =
      .ok ⟨.openai, ("gpt-4")⟩ ∧
    resolveProvider none (some ("sk")) none ("claude-v1") =
      .ok ⟨.anthropic, ("claude-v1")⟩ ∧
    resolveProvider none none none ("gpt-4") =
      .error (.valueError [("Invalid API key and model combination"), ("gpt-4")]) := by
  refine ⟨?_, ?_, ?_⟩
  · exact (resolveProvider_priority (some ("sk")) none none ("gpt-4")).1
      (by decide)
  · exact (resolveProvider_priority none (some ("sk")) none
      ("claude-v1")).2.1 (by decide) (by decide)
  · exact (resolveProvider_priority none none none ("gpt-4")).2.2.2.1
      (by decide) (by decide) (by decide)

/-- C9: every entry returned by `LLMS.list(query)` has the query as a
case-insensitive substring of its model name or of its backend family name,
and the returned sequence is non-decreasing in `prompt + completion` cost. -/
theorem LLMS_list_filter_sorted (q : String) (e : ModelInfoEntry)
    (he : e ∈ LLMS_list (some q)) :
    (chSubstr (pyLower q) (pyLower e.name) = true ∨
     chSubstr (pyLower q) (pyLower e.provider) = true) ∧
    (LLMS_list (some q)).Pairwise (fun a b => listCostKey a ≤ listCostKey b) := by
  constructor
  · have hk := mem_LLMS_list he
    simp only [keepEntry] at hk
    by_cases hq : q.data = []
    · left
      have hempty : pyLower q = [] := by simp [pyLower, hq]
      rw [hempty]
      exact chSubstr_nil _
    · rw [if_neg hq] at hk
      exact Bool.or_eq_true_iff.mp hk
  · have h := pySorted_pairwise
      (fun a b => decide (listCostKey a ≤ listCostKey b))
      (fun a b c hab hbc => decide_eq_true
        (le_trans (of_decide_eq_true hab) (of_decide_eq_true hbc)))
      (fun a b => by
        rcases le_total (listCostKey a) (listCostKey b) with h | h
        · exact Or.inl (decide_eq_true h)
        · exact Or.inr (decide_eq_true h))
    exact (h _).imp (fun hx => of_decide_eq_true hx)

/-- Witness for C9: the query `"o1-preview"` keeps exactly the matching
OpenAI entry, which carries its name as a substring. -/
theorem LLMS_list_filter_sorted_witness :
    (chSubstr (pyLower ("o1-preview")) (pyLower ("o1-preview")) = true ∨
     chSubstr (pyLower ("o1-preview")) (pyLower ("OpenAIProvider")) = true) ∧
    (LLMS_list (some ("o1-preview"))).Pairwise
      (fun a b => listCostKey a ≤ listCostKey b) :=
  LLMS_list_filter_sorted ("o1-preview")
    ⟨("OpenAIProvider"), ("o1-preview"), ⟨15, 60⟩⟩ (by decide)

/-- C10: constructing with an empty model list succeeds with zero providers
(the `len > 1` guards do not cover this case), after which `acomplete` and
`complete_stream` fail with `IndexError` from `self._providers[0]`, not with
the `NotImplementedError`/`ValueError` raised for multiple providers. -/
theorem zero_provider_paths :
    LLMS_init (.listArg []) (some ("sk-o")) (some ("sk-a")) (some ("sk-j"))
      ⟨none, none, none, none⟩ = .ok [] ∧
    acomplete_dispatch [] = .raised .indexError ∧
    complete_stream_dispatch [] = .raised .indexError :=
  ⟨rfl, rfl, rfl⟩
